import Mathlib

/-!
Verification of the ntosebpfext hook provider subsystem
(`src/libs/ebpf_ext/ebpf_ext_hook_provider.c`).

The C code is shallowly embedded: attach parameters are fixed-size byte
blobs modelled as `List Nat` compared with `memcmp` over the parameter
size; the provider's intrusive doubly-linked client list is modelled as a
Lean `List` of client records (insertion at the tail, removal of a single
node); NT status codes and eBPF result codes are enumerations.  Stateful
handlers are embedded as functions from their inputs and the current list
to an outcome record that carries the returned status, the final list and
a trace of the observable steps the handler performed, in program order.
-/

namespace NtosEbpfExt

/-- eBPF result codes used by this file (`ebpf_result_t`). -/
inductive EbpfResult where
  | EBPF_SUCCESS
  | EBPF_ACCESS_DENIED
deriving DecidableEq, Repr

/-- NT status codes used by this file. -/
inductive NTSTATUS where
  | STATUS_SUCCESS
  | STATUS_PENDING
  | STATUS_INVALID_PARAMETER
  | STATUS_ACCESS_DENIED
  | STATUS_NO_MEMORY
  | STATUS_INSUFFICIENT_RESOURCES
deriving DecidableEq, Repr

/-- `NT_SUCCESS(status)`: non-negative NT status codes. -/
def NT_SUCCESS : NTSTATUS → Bool
  | .STATUS_SUCCESS => true
  | .STATUS_PENDING => true
  | _ => false

/-- `memcmp(a, b, n) == 0`: the first `n` bytes of the two blobs agree. -/
def memcmpEq (n : Nat) (a b : List Nat) : Bool :=
  a.take n == b.take n

/-- `ebpf_extension_data_t`: client-supplied attach data; the `data`
pointer may be NULL (`none`). -/
structure ebpf_extension_data_t where
  data : Option (List Nat)
deriving DecidableEq, Repr

/-- `ebpf_extension_hook_client_t`: one attached hook NPI client.  Only
the fields the verified properties inspect are modelled; the NMR binding
handle doubles as the node identity for the intrusive list. -/
structure ebpf_extension_hook_client_t where
  nmr_binding_handle : Nat
  client_data : ebpf_extension_data_t
deriving DecidableEq, Repr

/-- The stored attach parameter the matcher compares against for an
existing client: `(next_client_data->data == NULL) ?
wild_card_attach_parameter : next_client_data->data`. -/
def next_client_attach_parameter
    (wild_card_attach_parameter : List Nat)
    (next_client : ebpf_extension_hook_client_t) : List Nat :=
  (next_client.client_data.data).getD wild_card_attach_parameter

/-- The `while (link != &provider_context->attached_clients_list)` loop of
`ebpf_extension_hook_check_attach_parameter`: walk the attached clients
and deny if any stored parameter equals the wildcard or the requested
parameter. -/
def check_attach_loop (n : Nat) (attach_parameter wild_card : List Nat) :
    List ebpf_extension_hook_client_t → EbpfResult
  | [] => .EBPF_SUCCESS
  | next_client :: rest =>
    let p := next_client_attach_parameter wild_card next_client
    if memcmpEq n wild_card p || memcmpEq n attach_parameter p then
      .EBPF_ACCESS_DENIED
    else
      check_attach_loop n attach_parameter wild_card rest

/-- `ebpf_extension_hook_check_attach_parameter`: the attach-parameter
matcher, run under the provider's shared (read) lock. -/
def ebpf_extension_hook_check_attach_parameter
    (attach_parameter_size : Nat)
    (attach_parameter wild_card_attach_parameter : List Nat)
    (attached_clients_list : List ebpf_extension_hook_client_t) : EbpfResult :=
  if memcmpEq attach_parameter_size attach_parameter wild_card_attach_parameter then
    -- wildcard request: allowed only when no other client is attached
    if attached_clients_list.isEmpty then .EBPF_SUCCESS else .EBPF_ACCESS_DENIED
  else
    check_attach_loop attach_parameter_size attach_parameter wild_card_attach_parameter
      attached_clients_list

/-- The loop denies exactly when some attached client's stored parameter
matches the wildcard or the requested parameter. -/
theorem check_attach_loop_denied_iff (n : Nat) (P W : List Nat)
    (l : List ebpf_extension_hook_client_t) :
    check_attach_loop n P W l = .EBPF_ACCESS_DENIED ↔
      ∃ c ∈ l, (memcmpEq n W (next_client_attach_parameter W c)
        || memcmpEq n P (next_client_attach_parameter W c)) = true := by
  induction l with
  | nil => simp [check_attach_loop]
  | cons c rest ih =>
    simp only [check_attach_loop]
    by_cases h : (memcmpEq n W (next_client_attach_parameter W c)
        || memcmpEq n P (next_client_attach_parameter W c)) = true
    · rw [if_pos h]
      constructor
      · intro _; exact ⟨c, List.mem_cons_self c rest, h⟩
      · intro _; rfl
    · rw [if_neg h, ih]
      constructor
      · rintro ⟨a, ha, hp⟩; exact ⟨a, List.mem_cons_of_mem _ ha, hp⟩
      · rintro ⟨a, ha, hp⟩
        rcases List.mem_cons.mp ha with h' | ha'
        · exact absurd (h' ▸ hp) h
        · exact ⟨a, ha', hp⟩

/-- The loop returns either success or access-denied. -/
theorem check_attach_loop_cases (n : Nat) (P W : List Nat)
    (l : List ebpf_extension_hook_client_t) :
    check_attach_loop n P W l = .EBPF_SUCCESS ∨
      check_attach_loop n P W l = .EBPF_ACCESS_DENIED := by
  induction l with
  | nil => left; rfl
  | cons c rest ih =>
    by_cases h : (memcmpEq n W (next_client_attach_parameter W c)
        || memcmpEq n P (next_client_attach_parameter W c)) = true
    · right; simp [check_attach_loop, h]
    · simpa [check_attach_loop, h] using ih

/-- Observable steps of `_ebpf_extension_hook_provider_attach_client`, in
program order.  `runMatcher` is the run of
`ebpf_extension_hook_check_attach_parameter`; it happens inside the
hook-specific attach callback (`attachCallback`), which the handler
invokes through `provider_context->attach_callback`. -/
inductive AttachStep where
  | validateArgs   -- NULL checks on the handler's arguments
  | allocClient    -- ExAllocatePoolUninitialized of the hook_client record
  | allocWorkItem  -- IoAllocateWorkItem in _ebpf_ext_attach_init_rundown
  | initRundown    -- rundown protection set up, rundown_occurred = FALSE
  | attachCallback -- provider's hook-specific attach callback invoked
  | runMatcher     -- ebpf_extension_hook_check_attach_parameter runs
  | appendClient   -- InsertTailList under the exclusive (write) lock
deriving DecidableEq, Repr, BEq

/-- Position of a step in a trace (`none` when the step never occurred). -/
def stepIndex {α : Type} [BEq α] (t : List α) (a : α) : Option Nat :=
  t.findIdx? (fun x => x == a)

/-- `a` occurred and `b` occurred and `a` came strictly first. -/
def precedesB {α : Type} [BEq α] (t : List α) (a b : α) : Bool :=
  match stepIndex t a, stepIndex t b with
  | some i, some j => decide (i < j)
  | _, _ => false

/-- Inputs of one attach request: which argument/allocation checks fail,
the matcher's inputs, the record the client would become, and the
hook-specific part of the attach callback's verdict. -/
structure AttachParams where
  provider_binding_context_null : Bool -- output arg NULL
  provider_dispatch_null : Bool        -- output arg NULL
  provider_context_null : Bool         -- provider context NULL
  alloc_hook_client_fails : Bool       -- pool allocation failure
  client_dispatch_null : Bool          -- client dispatch table NULL
  alloc_work_item_fails : Bool         -- IoAllocateWorkItem failure
  attach_parameter_size : Nat
  attach_parameter : List Nat
  wild_card_attach_parameter : List Nat
  client : ebpf_extension_hook_client_t -- record built from the registration instance
  hook_attach_result : EbpfResult       -- hook-specific verdict after the matcher passes
deriving DecidableEq, Repr

/-- Outcome of one attach request: returned status, step trace, the
provider's list afterwards, which allocations were made and released, and
the returned provider binding context. -/
structure AttachOutcome where
  status : NTSTATUS
  events : List AttachStep
  finalList : List ebpf_extension_hook_client_t
  hookClientAllocated : Bool
  workItemAllocated : Bool
  hookClientFreed : Bool
  workItemFreed : Bool
  providerBindingContext : Option ebpf_extension_hook_client_t
deriving DecidableEq, Repr

/-- The handler's single `Exit:` block: on NT success publish the binding
context (`hook_client = NULL` skips the cleanup); otherwise run
`_ebpf_extension_hook_client_cleanup`, which frees the work item when one
was allocated and then frees the client record when one was allocated. -/
def attach_exit (status : NTSTATUS) (events : List AttachStep)
    (finalList : List ebpf_extension_hook_client_t)
    (clientAlloc workItemAlloc : Bool)
    (client : ebpf_extension_hook_client_t) : AttachOutcome :=
  if NT_SUCCESS status then
    { status := status, events := events, finalList := finalList,
      hookClientAllocated := clientAlloc, workItemAllocated := workItemAlloc,
      hookClientFreed := false, workItemFreed := false,
      providerBindingContext := some client }
  else
    { status := status, events := events, finalList := finalList,
      hookClientAllocated := clientAlloc, workItemAllocated := workItemAlloc,
      hookClientFreed := clientAlloc, workItemFreed := clientAlloc && workItemAlloc,
      providerBindingContext := none }

/-- Modelled from the spec: the hook-specific attach callbacks themselves
are not under `src/` (only this file's generic provider is); per spec
sections 4.2 and 4.3 they run the Matcher
(`ebpf_extension_hook_check_attach_parameter`) under the provider's read
lock and veto on conflict, then perform hook-specific setup whose verdict
is `hook_attach_result`. -/
def attach_callback_model (i : AttachParams)
    (l : List ebpf_extension_hook_client_t) : EbpfResult :=
  if ebpf_extension_hook_check_attach_parameter i.attach_parameter_size
      i.attach_parameter i.wild_card_attach_parameter l = .EBPF_ACCESS_DENIED then
    .EBPF_ACCESS_DENIED
  else
    i.hook_attach_result

/-- `InsertTailList`: append a node at the tail of the intrusive list. -/
def InsertTailList (l : List ebpf_extension_hook_client_t)
    (c : ebpf_extension_hook_client_t) : List ebpf_extension_hook_client_t :=
  l ++ [c]

/-- `_ebpf_extension_hook_provider_attach_client`: the NMR attach
handler, embedded over the provider's current attached-client list.  Each
branch is one `goto Exit` path of the source. -/
def _ebpf_extension_hook_provider_attach_client (i : AttachParams)
    (l : List ebpf_extension_hook_client_t) : AttachOutcome :=
  if i.provider_binding_context_null || i.provider_dispatch_null
      || i.provider_context_null then
    attach_exit .STATUS_INVALID_PARAMETER [.validateArgs] l false false i.client
  else if i.alloc_hook_client_fails then
    attach_exit .STATUS_NO_MEMORY [.validateArgs] l false false i.client
  else if i.client_dispatch_null then
    attach_exit .STATUS_INVALID_PARAMETER [.validateArgs, .allocClient] l
      true false i.client
  else if i.alloc_work_item_fails then
    attach_exit .STATUS_INSUFFICIENT_RESOURCES [.validateArgs, .allocClient] l
      true false i.client
  else if attach_callback_model i l = .EBPF_SUCCESS then
    attach_exit .STATUS_SUCCESS
      [.validateArgs, .allocClient, .allocWorkItem, .initRundown,
        .attachCallback, .runMatcher, .appendClient]
      (InsertTailList l i.client) true true i.client
  else
    attach_exit .STATUS_ACCESS_DENIED
      [.validateArgs, .allocClient, .allocWorkItem, .initRundown,
        .attachCallback, .runMatcher]
      l true true i.client

/-- C1: when the requested parameter is byte-for-byte equal to the
wildcard value over the full parameter size,
`ebpf_extension_hook_check_attach_parameter` returns success if the
provider's attached-client list is empty and access-denied if it is
non-empty. -/
theorem wildcard_attach_exclusivity (n : Nat) (P W : List Nat)
    (l : List ebpf_extension_hook_client_t)
    (h : memcmpEq n P W = true) :
    (l = [] → ebpf_extension_hook_check_attach_parameter n P W l = .EBPF_SUCCESS) ∧
    (l ≠ [] → ebpf_extension_hook_check_attach_parameter n P W l = .EBPF_ACCESS_DENIED) := by
  constructor
  · rintro rfl
    simp [ebpf_extension_hook_check_attach_parameter, h]
  · intro hne
    have hl : l.isEmpty = false := by
      cases l with
      | nil => exact absurd rfl hne
      | cons a as => rfl
    simp [ebpf_extension_hook_check_attach_parameter, h, hl]

/-- Witness for C1 at a concrete wildcard request, on the empty list and
on a one-client list. -/
theorem wildcard_attach_exclusivity_witness :
    ebpf_extension_hook_check_attach_parameter 1 [7] [7] [] = .EBPF_SUCCESS ∧
    ebpf_extension_hook_check_attach_parameter 1 [7] [7]
      [⟨0, ⟨some [3]⟩⟩] = .EBPF_ACCESS_DENIED :=
  ⟨(wildcard_attach_exclusivity 1 [7] [7] [] (by decide)).1 rfl,
   (wildcard_attach_exclusivity 1 [7] [7] [⟨0, ⟨some [3]⟩⟩] (by decide)).2 (by decide)⟩

/-- C2: when the requested parameter differs from the wildcard value, the
matcher returns access-denied iff some attached client's stored parameter
(the wildcard standing in for a NULL data pointer, as the code
substitutes) equals the wildcard or the requested parameter; with no such
client it returns success. -/
theorem exact_attach_denied_iff (n : Nat) (P W : List Nat)
    (l : List ebpf_extension_hook_client_t)
    (h : memcmpEq n P W = false) :
    (ebpf_extension_hook_check_attach_parameter n P W l = .EBPF_ACCESS_DENIED ↔
      ∃ c ∈ l, (memcmpEq n W (next_client_attach_parameter W c)
        || memcmpEq n P (next_client_attach_parameter W c)) = true) ∧
    ((¬ ∃ c ∈ l, (memcmpEq n W (next_client_attach_parameter W c)
        || memcmpEq n P (next_client_attach_parameter W c)) = true) →
      ebpf_extension_hook_check_attach_parameter n P W l = .EBPF_SUCCESS) := by
  have hne : ¬ (memcmpEq n P W = true) := by simp [h]
  constructor
  · rw [ebpf_extension_hook_check_attach_parameter, if_neg hne]
    exact check_attach_loop_denied_iff n P W l
  · intro hno
    rw [ebpf_extension_hook_check_attach_parameter, if_neg hne]
    rcases check_attach_loop_cases n P W l with hs | hd
    · exact hs
    · exact absurd ((check_attach_loop_denied_iff n P W l).1 hd) hno

/-- Witness for C2: an exact request is denied when an attached client
stores the same exact parameter. -/
theorem exact_attach_denied_iff_witness :
    ebpf_extension_hook_check_attach_parameter 1 [1] [0]
      [⟨0, ⟨some [1]⟩⟩] = .EBPF_ACCESS_DENIED :=
  (exact_attach_denied_iff 1 [1] [0] [⟨0, ⟨some [1]⟩⟩] (by decide)).1.mpr
    ⟨⟨0, ⟨some [1]⟩⟩, by decide, by decide⟩

/-- C9: an attached client whose `client_data->data` pointer is NULL is
treated as holding the wildcard parameter, so while it is in the list
every exact (non-wildcard) attach check is denied, whatever the requested
bytes are. -/
theorem null_client_data_blocks_exact_attach (n : Nat) (P W : List Nat)
    (l : List ebpf_extension_hook_client_t)
    (hPW : memcmpEq n P W = false)
    (hnull : ∃ c ∈ l, c.client_data.data = none) :
    ebpf_extension_hook_check_attach_parameter n P W l = .EBPF_ACCESS_DENIED := by
  have hne : ¬ (memcmpEq n P W = true) := by simp [hPW]
  rw [ebpf_extension_hook_check_attach_parameter, if_neg hne]
  rcases hnull with ⟨c, hc, hdata⟩
  apply (check_attach_loop_denied_iff n P W l).2
  refine ⟨c, hc, ?_⟩
  have hw : next_client_attach_parameter W c = W := by
    simp [next_client_attach_parameter, hdata]
  rw [hw]
  simp [memcmpEq]

/-- Witness for C9 at a concrete NULL-data client and exact request. -/
theorem null_client_data_blocks_exact_attach_witness :
    ebpf_extension_hook_check_attach_parameter 1 [9] [0]
      [⟨0, ⟨none⟩⟩] = .EBPF_ACCESS_DENIED :=
  null_client_data_blocks_exact_attach 1 [9] [0] [⟨0, ⟨none⟩⟩] (by decide)
    ⟨⟨0, ⟨none⟩⟩, by decide, rfl⟩

/-- The step order claim C3 asserts of every attach request: validation,
then the Matcher, then client-record allocation and rundown init, then
the attach callback, then the append. -/
def spec_attach_order (i : AttachParams)
    (l : List ebpf_extension_hook_client_t) : Bool :=
  let e := (_ebpf_extension_hook_provider_attach_client i l).events
  precedesB e .validateArgs .runMatcher &&
  precedesB e .runMatcher .allocClient &&
  precedesB e .allocClient .initRundown &&
  precedesB e .initRundown .attachCallback &&
  precedesB e .attachCallback .appendClient

/-- A concrete attach request on which every check and allocation
succeeds and the hook-specific callback accepts. -/
def attachOkParams : AttachParams :=
  ⟨false, false, false, false, false, false, 1, [1], [0],
    ⟨0, ⟨some [1]⟩⟩, .EBPF_SUCCESS⟩

/-- C3 counterexample: on a concrete successful attach, the client
record is allocated, the rundown guard initialized and the attach
callback invoked before the Matcher runs (the matcher runs inside the
callback), so the claimed Validated-before-Callback-Initializing order
does not hold. -/
theorem attach_spec_order_counterexample :
    ¬ spec_attach_order attachOkParams [] = true := by decide

/-- The `Exit:` block returns the status it was reached with. -/
theorem attach_exit_status (s : NTSTATUS) (e : List AttachStep)
    (fl : List ebpf_extension_hook_client_t) (ca wa : Bool)
    (c : ebpf_extension_hook_client_t) :
    (attach_exit s e fl ca wa c).status = s := by
  unfold attach_exit; split <;> rfl

/-- The `Exit:` block does not change the step trace. -/
theorem attach_exit_events (s : NTSTATUS) (e : List AttachStep)
    (fl : List ebpf_extension_hook_client_t) (ca wa : Bool)
    (c : ebpf_extension_hook_client_t) :
    (attach_exit s e fl ca wa c).events = e := by
  unfold attach_exit; split <;> rfl

/-- The matcher's conflict verdict propagates through the hook-specific
attach callback. -/
theorem attach_callback_model_denied (i : AttachParams)
    (l : List ebpf_extension_hook_client_t)
    (h : ebpf_extension_hook_check_attach_parameter i.attach_parameter_size
      i.attach_parameter i.wild_card_attach_parameter l = .EBPF_ACCESS_DENIED) :
    attach_callback_model i l = .EBPF_ACCESS_DENIED := by
  simp [attach_callback_model, h]

/-- C3 amended: required-field validation rejects first with
invalid-parameter; then the client record is allocated and its rundown
guard initialized; then the provider's hook-specific attach callback is
invoked, and the Matcher runs within that callback under the read lock,
a conflict rejecting the attach with access-denied; only on callback
success is the client appended to the list under the write lock.  So the
Matcher does run during attach before the client is linked, but after
the record's allocation and after the callback's invocation, not before
them. -/
theorem attach_state_machine_order (i : AttachParams)
    (l : List ebpf_extension_hook_client_t) :
    ((_ebpf_extension_hook_provider_attach_client i l).status = .STATUS_SUCCESS →
      (_ebpf_extension_hook_provider_attach_client i l).events =
        [.validateArgs, .allocClient, .allocWorkItem, .initRundown,
          .attachCallback, .runMatcher, .appendClient]) ∧
    (AttachStep.runMatcher ∈ (_ebpf_extension_hook_provider_attach_client i l).events →
      precedesB (_ebpf_extension_hook_provider_attach_client i l).events
        .validateArgs .runMatcher = true ∧
      precedesB (_ebpf_extension_hook_provider_attach_client i l).events
        .allocClient .runMatcher = true ∧
      precedesB (_ebpf_extension_hook_provider_attach_client i l).events
        .initRundown .runMatcher = true ∧
      precedesB (_ebpf_extension_hook_provider_attach_client i l).events
        .attachCallback .runMatcher = true ∧
      (ebpf_extension_hook_check_attach_parameter i.attach_parameter_size
          i.attach_parameter i.wild_card_attach_parameter l = .EBPF_ACCESS_DENIED →
        (_ebpf_extension_hook_provider_attach_client i l).status =
          .STATUS_ACCESS_DENIED)) ∧
    (AttachStep.appendClient ∈ (_ebpf_extension_hook_provider_attach_client i l).events →
      (_ebpf_extension_hook_provider_attach_client i l).status = .STATUS_SUCCESS ∧
      precedesB (_ebpf_extension_hook_provider_attach_client i l).events
        .runMatcher .appendClient = true) := by
  unfold _ebpf_extension_hook_provider_attach_client
  by_cases h1 : (i.provider_binding_context_null || i.provider_dispatch_null
      || i.provider_context_null) = true
  · simp [h1, attach_exit, NT_SUCCESS, precedesB, stepIndex]
  · by_cases h2 : i.alloc_hook_client_fails = true
    · simp [h1, h2, attach_exit, NT_SUCCESS, precedesB, stepIndex]
    · by_cases h3 : i.client_dispatch_null = true
      · simp [h1, h2, h3, attach_exit, NT_SUCCESS, precedesB, stepIndex]
      · by_cases h4 : i.alloc_work_item_fails = true
        · simp [h1, h2, h3, h4, attach_exit, NT_SUCCESS, precedesB, stepIndex]
        · by_cases h5 : attach_callback_model i l = .EBPF_SUCCESS
          · have hnd :
                ¬ ebpf_extension_hook_check_attach_parameter i.attach_parameter_size
                  i.attach_parameter i.wild_card_attach_parameter l =
                    .EBPF_ACCESS_DENIED := by
              intro hm
              rw [attach_callback_model_denied i l hm] at h5
              exact absurd h5 (by decide)
            rw [if_neg h1, if_neg h2, if_neg h3, if_neg h4, if_pos h5]
            simp [attach_exit_events, attach_exit_status, hnd]
            all_goals decide
          · rw [if_neg h1, if_neg h2, if_neg h3, if_neg h4, if_neg h5]
            simp [attach_exit_events, attach_exit_status]
            all_goals decide

/-- Witness for C3's amended theorem: on the concrete successful attach,
the full ordered trace is produced. -/
theorem attach_state_machine_order_witness :
    (_ebpf_extension_hook_provider_attach_client attachOkParams []).events =
      [.validateArgs, .allocClient, .allocWorkItem, .initRundown,
        .attachCallback, .runMatcher, .appendClient] :=
  (attach_state_machine_order attachOkParams []).1 (by decide)

/-- C4: every attach failure is fully unwound before returning: the
attached-client list is unchanged, no binding context is published, and
every resource allocated for the rejected client (record and detach work
item) is released. -/
theorem attach_failure_fully_unwound (i : AttachParams)
    (l : List ebpf_extension_hook_client_t)
    (h : (_ebpf_extension_hook_provider_attach_client i l).status ≠ .STATUS_SUCCESS) :
    (_ebpf_extension_hook_provider_attach_client i l).finalList = l ∧
    (_ebpf_extension_hook_provider_attach_client i l).providerBindingContext = none ∧
    ((_ebpf_extension_hook_provider_attach_client i l).hookClientAllocated = true →
      (_ebpf_extension_hook_provider_attach_client i l).hookClientFreed = true) ∧
    ((_ebpf_extension_hook_provider_attach_client i l).workItemAllocated = true →
      (_ebpf_extension_hook_provider_attach_client i l).workItemFreed = true) := by
  revert h
  unfold _ebpf_extension_hook_provider_attach_client
  by_cases h1 : (i.provider_binding_context_null || i.provider_dispatch_null
      || i.provider_context_null) = true
  · simp [h1, attach_exit, NT_SUCCESS]
  · by_cases h2 : i.alloc_hook_client_fails = true
    · simp [h1, h2, attach_exit, NT_SUCCESS]
    · by_cases h3 : i.client_dispatch_null = true
      · simp [h1, h2, h3, attach_exit, NT_SUCCESS]
      · by_cases h4 : i.alloc_work_item_fails = true
        · simp [h1, h2, h3, h4, attach_exit, NT_SUCCESS]
        · by_cases h5 : attach_callback_model i l = .EBPF_SUCCESS
          · simp [h1, h2, h3, h4, h5, attach_exit, NT_SUCCESS]
          · simp [h1, h2, h3, h4, h5, attach_exit, NT_SUCCESS]

/-- Witness for C4 at a concrete rejected attach (the hook-specific
callback vetoes): list unchanged, record and work item released. -/
theorem attach_failure_fully_unwound_witness :
    (_ebpf_extension_hook_provider_attach_client
        ⟨false, false, false, false, false, false, 1, [1], [0],
          ⟨0, ⟨some [1]⟩⟩, .EBPF_ACCESS_DENIED⟩ []).finalList =
      ([] : List ebpf_extension_hook_client_t) :=
  (attach_failure_fully_unwound
    ⟨false, false, false, false, false, false, 1, [1], [0],
      ⟨0, ⟨some [1]⟩⟩, .EBPF_ACCESS_DENIED⟩ [] (by decide)).1

/-- Observable steps of the detach handler and of the queued completion
work item, in program order. -/
inductive DetachStep where
  | derefProviderContext -- local_client_context->provider_context is read
  | nullCheck            -- the if (local_client_context == NULL) test
  | detachCallback       -- provider's hook-specific detach callback
  | acquireWriteLock     -- ExAcquireSpinLockExclusive
  | removeFromList       -- RemoveEntryList
  | releaseWriteLock     -- ExReleaseSpinLockExclusive
  | queueWorkItem        -- IoQueueWorkItem of the completion routine
  | waitForRundown       -- _ebpf_ext_attach_wait_for_rundown (blocking drain)
  | freeWorkItem         -- IoFreeWorkItem
  | nmrDetachComplete    -- NmrProviderDetachClientComplete
deriving DecidableEq, Repr, BEq

/-- A NULL-pointer dereference fault. -/
inductive Fault where
  | nullDeref
deriving DecidableEq, Repr

/-- Outcome of one detach request on the caller's thread: returned
status, the steps performed on that thread, the provider's list
afterwards, and the client whose completion work item was queued. -/
structure DetachOutcome where
  status : NTSTATUS
  events : List DetachStep
  finalList : List ebpf_extension_hook_client_t
  queuedWorkItem : Option ebpf_extension_hook_client_t
deriving DecidableEq, Repr

/-- `RemoveEntryList`: unlink the given node from the intrusive list. -/
def RemoveEntryList (l : List ebpf_extension_hook_client_t)
    (c : ebpf_extension_hook_client_t) : List ebpf_extension_hook_client_t :=
  l.erase c

/-- `_ebpf_extension_hook_provider_detach_client`: the NMR detach
handler.  The source reads `local_client_context->provider_context`
before its `local_client_context == NULL` test, so a NULL binding
context faults on the dereference and the test itself only ever sees a
non-NULL pointer. -/
def _ebpf_extension_hook_provider_detach_client
    (provider_binding_context : Option ebpf_extension_hook_client_t)
    (l : List ebpf_extension_hook_client_t) : Except Fault DetachOutcome :=
  match provider_binding_context with
  | none => .error .nullDeref  -- reading ->provider_context through NULL
  | some local_client_context =>
    -- the NULL check runs only after the dereference succeeded
    if (some local_client_context :
        Option ebpf_extension_hook_client_t).isNone then
      .ok ⟨.STATUS_INVALID_PARAMETER,
        [.derefProviderContext, .nullCheck], l, none⟩
    else
      .ok ⟨.STATUS_PENDING,
        [.derefProviderContext, .nullCheck, .detachCallback,
          .acquireWriteLock, .removeFromList, .releaseWriteLock,
          .queueWorkItem],
        RemoveEntryList l local_client_context,
        some local_client_context⟩

/-- `_ebpf_extension_detach_client_completion`: the queued IO work item
routine: wait for the client's rundown to drain, free the work item,
then call `NmrProviderDetachClientComplete` for the client. -/
def _ebpf_extension_detach_client_completion
    (_hook_client : ebpf_extension_hook_client_t) : List DetachStep :=
  [.waitForRundown, .freeWorkItem, .nmrDetachComplete]

/-- C5: detaching a linked client has no failure outcome visible to the
caller: the handler returns pending, queues exactly one completion work
item for the client, performs no completion call itself, and the queued
work item invokes `NmrProviderDetachClientComplete` exactly once. -/
theorem detach_pending_completion_once (c : ebpf_extension_hook_client_t)
    (l : List ebpf_extension_hook_client_t) :
    ∃ o : DetachOutcome,
      _ebpf_extension_hook_provider_detach_client (some c) l = .ok o ∧
      o.status = .STATUS_PENDING ∧
      o.queuedWorkItem = some c ∧
      o.events.count .nmrDetachComplete = 0 ∧
      (_ebpf_extension_detach_client_completion c).count .nmrDetachComplete = 1 := by
  refine ⟨_, rfl, rfl, rfl, ?_, ?_⟩
  · show List.count DetachStep.nmrDetachComplete
      [.derefProviderContext, .nullCheck, .detachCallback, .acquireWriteLock,
        .removeFromList, .releaseWriteLock, .queueWorkItem] = 0
    decide
  · show List.count DetachStep.nmrDetachComplete
      [.waitForRundown, .freeWorkItem, .nmrDetachComplete] = 1
    decide

/-- C6: a detach performs, in order, the hook-specific detach callback,
then removal from the list under the exclusive lock, and only then
queues the rundown drain-and-wait onto the deferred work item; the
blocking wait never runs on the detach caller's thread. -/
theorem detach_unlink_then_async_drain (c : ebpf_extension_hook_client_t)
    (l : List ebpf_extension_hook_client_t) :
    ∃ o : DetachOutcome,
      _ebpf_extension_hook_provider_detach_client (some c) l = .ok o ∧
      o.events = [.derefProviderContext, .nullCheck, .detachCallback,
        .acquireWriteLock, .removeFromList, .releaseWriteLock,
        .queueWorkItem] ∧
      o.events.count .waitForRundown = 0 ∧
      (_ebpf_extension_detach_client_completion c).count .waitForRundown = 1 ∧
      o.queuedWorkItem = some c := by
  refine ⟨_, rfl, rfl, ?_, ?_, rfl⟩
  · show List.count DetachStep.waitForRundown
      [.derefProviderContext, .nullCheck, .detachCallback, .acquireWriteLock,
        .removeFromList, .releaseWriteLock, .queueWorkItem] = 0
    decide
  · show List.count DetachStep.waitForRundown
      [.waitForRundown, .freeWorkItem, .nmrDetachComplete] = 1
    decide

/-- C10: the detach handler dereferences its binding-context argument
before its NULL check, so a NULL input faults on the dereference and for
every non-NULL input the invalid-parameter branch is not taken (pending
is returned); in the handler's trace the dereference strictly precedes
the check. -/
theorem detach_null_check_unreachable :
    (∀ l, _ebpf_extension_hook_provider_detach_client none l =
      .error .nullDeref) ∧
    (∀ (c : ebpf_extension_hook_client_t) l,
      ∃ o : DetachOutcome,
        _ebpf_extension_hook_provider_detach_client (some c) l = .ok o ∧
        o.status = .STATUS_PENDING ∧
        stepIndex o.events .derefProviderContext = some 0 ∧
        stepIndex o.events .nullCheck = some 1) := by
  constructor
  · intro l; rfl
  · intro c l
    refine ⟨_, rfl, rfl, ?_, ?_⟩
    · show stepIndex
        [DetachStep.derefProviderContext, .nullCheck, .detachCallback,
          .acquireWriteLock, .removeFromList, .releaseWriteLock,
          .queueWorkItem] DetachStep.derefProviderContext = some 0
      decide
    · show stepIndex
        [DetachStep.derefProviderContext, .nullCheck, .detachCallback,
          .acquireWriteLock, .removeFromList, .releaseWriteLock,
          .queueWorkItem] DetachStep.nullCheck = some 1
      decide

/-- Modelled from the spec: the `EX_RUNDOWN_REF` primitive that the
rundown wrappers delegate to (`ExAcquireRundownProtection`,
`ExReleaseRundownProtection`, `ExWaitForRundownProtectionRelease`) is
OS-supplied code not under `src/`; per spec section 4.1 its state is a
live-reference counter plus a one-way "no new acquisitions" flag, and
the blocking wait returns only once the counter is zero. -/
structure RundownState where
  liveCount : Nat
  draining : Bool
  rundown_occurred : Bool
deriving DecidableEq, Repr

/-- The state `_ebpf_ext_attach_init_rundown` leaves the guard in. -/
def initRundownState : RundownState := ⟨0, false, false⟩

/-- `ExAcquireRundownProtection`: fails once draining has begun,
otherwise increments the live count. -/
def exAcquireRundownProtection (s : RundownState) : Bool × RundownState :=
  if s.draining then (false, s)
  else (true, { s with liveCount := s.liveCount + 1 })

/-- `ExReleaseRundownProtection`: decrements the live count. -/
def exReleaseRundownProtection (s : RundownState) : RundownState :=
  { s with liveCount := s.liveCount - 1 }

/-- `ebpf_extension_hook_client_enter_rundown`: try to acquire the
client's rundown protection. -/
def ebpf_extension_hook_client_enter_rundown (s : RundownState) :
    Bool × RundownState :=
  exAcquireRundownProtection s

/-- `ebpf_extension_hook_client_leave_rundown`: release the client's
rundown protection. -/
def ebpf_extension_hook_client_leave_rundown (s : RundownState) :
    RundownState :=
  exReleaseRundownProtection s

/-- The blocking wait inside `_ebpf_ext_attach_wait_for_rundown`
(`ExWaitForRundownProtectionRelease`) can return in a state exactly when
the live count has reached zero. -/
def rundown_wait_returns (s : RundownState) : Prop := s.liveCount = 0

/-- `_ebpf_ext_attach_wait_for_rundown`: after the wait returns, record
that rundown occurred. -/
def _ebpf_ext_attach_wait_for_rundown (s : RundownState) : RundownState :=
  { s with rundown_occurred := true }

/-- One interleaved operation on a single client's guard.  `drainBegin`
is the instant `ExWaitForRundownProtectionRelease` turns off new
acquisitions. -/
inductive GuardOp where
  | tryAcquire
  | release
  | drainBegin
deriving DecidableEq, Repr, BEq

/-- Effect of one guard operation on the guard state. -/
def guardStep (s : RundownState) : GuardOp → RundownState
  | .tryAcquire => (ebpf_extension_hook_client_enter_rundown s).2
  | .release => ebpf_extension_hook_client_leave_rundown s
  | .drainBegin => { s with draining := true }

/-- Run a sequence of guard operations. -/
def runGuard (s : RundownState) : List GuardOp → RundownState
  | [] => s
  | op :: ops => runGuard (guardStep s op) ops

/-- Number of `tryAcquire`s that succeed along a run. -/
def countSucc (s : RundownState) : List GuardOp → Nat
  | [] => 0
  | .tryAcquire :: ops =>
    (if s.draining then 0 else 1) + countSucc (guardStep s .tryAcquire) ops
  | .release :: ops => countSucc (guardStep s .release) ops
  | .drainBegin :: ops => countSucc (guardStep s .drainBegin) ops

/-- Number of `release`s in a sequence. -/
def countRel : List GuardOp → Nat
  | [] => 0
  | .release :: ops => 1 + countRel ops
  | _ :: ops => countRel ops

/-- A well-formed interleaving: no prefix releases the guard more times
than it successfully acquired it (each release matches an earlier
successful acquire, the usage contract of rundown protection). -/
def balanced (ops : List GuardOp) : Prop :=
  (∀ n, n < ops.length →
    countRel (ops.take n) ≤ countSucc initRundownState (ops.take n)) ∧
  countRel ops ≤ countSucc initRundownState ops

/-- A guard operation never clears the draining flag. -/
theorem guardStep_draining (s : RundownState) (op : GuardOp)
    (h : s.draining = true) : (guardStep s op).draining = true := by
  cases op with
  | tryAcquire =>
    simp [guardStep, ebpf_extension_hook_client_enter_rundown,
      exAcquireRundownProtection, h]
  | release =>
    simpa [guardStep, ebpf_extension_hook_client_leave_rundown,
      exReleaseRundownProtection] using h
  | drainBegin => rfl

/-- Running any operations preserves the draining flag. -/
theorem runGuard_draining (ops : List GuardOp) (s : RundownState)
    (h : s.draining = true) : (runGuard s ops).draining = true := by
  induction ops generalizing s with
  | nil => exact h
  | cons op ops ih => exact ih _ (guardStep_draining s op h)

/-- Running a concatenation is running the parts in turn. -/
theorem runGuard_append (a b : List GuardOp) (s : RundownState) :
    runGuard s (a ++ b) = runGuard (runGuard s a) b := by
  induction a generalizing s with
  | nil => rfl
  | cons op a ih => simp [runGuard, ih]

/-- Reference-count invariant: along a well-formed run the final live
count plus the releases equals the initial live count plus the
successful acquires. -/
theorem runGuard_liveCount (ops : List GuardOp) (s : RundownState)
    (h : ∀ n, countRel (ops.take n) ≤ s.liveCount + countSucc s (ops.take n)) :
    (runGuard s ops).liveCount + countRel ops = s.liveCount + countSucc s ops := by
  induction ops generalizing s with
  | nil => simp [runGuard, countRel, countSucc]
  | cons op ops ih =>
    cases op with
    | tryAcquire =>
      by_cases hd : s.draining = true
      · have hg : guardStep s GuardOp.tryAcquire = s := by
          simp [guardStep, ebpf_extension_hook_client_enter_rundown,
            exAcquireRundownProtection, hd]
        have h' : ∀ n, countRel (ops.take n) ≤
            s.liveCount + countSucc s (ops.take n) := by
          intro n
          have hn := h (n + 1)
          simp [List.take_succ_cons, countRel, countSucc, hd, hg] at hn
          omega
        have ihs := ih s h'
        simp only [runGuard]
        rw [hg]
        simp [countRel, countSucc, hd, hg]
        omega
      · have hd' : s.draining = false := by
          cases hds : s.draining with
          | false => rfl
          | true => exact absurd hds hd
        have hgl : (guardStep s GuardOp.tryAcquire).liveCount =
            s.liveCount + 1 := by
          simp [guardStep, ebpf_extension_hook_client_enter_rundown,
            exAcquireRundownProtection, hd']
        have h' : ∀ n, countRel (ops.take n) ≤
            (guardStep s GuardOp.tryAcquire).liveCount +
              countSucc (guardStep s GuardOp.tryAcquire) (ops.take n) := by
          intro n
          have hn := h (n + 1)
          simp [List.take_succ_cons, countRel, countSucc, hd'] at hn
          rw [hgl]
          omega
        have ihs := ih (guardStep s GuardOp.tryAcquire) h'
        rw [hgl] at ihs
        simp only [runGuard]
        simp [countRel, countSucc, hd']
        omega
    | release =>
      have hlive : 1 ≤ s.liveCount := by
        have h1 := h 1
        simpa [countRel, countSucc] using h1
      have hgl : (guardStep s GuardOp.release).liveCount =
          s.liveCount - 1 := rfl
      have h' : ∀ n, countRel (ops.take n) ≤
          (guardStep s GuardOp.release).liveCount +
            countSucc (guardStep s GuardOp.release) (ops.take n) := by
        intro n
        have hn := h (n + 1)
        simp only [List.take_succ_cons, countRel, countSucc] at hn
        rw [hgl]
        omega
      have ihs := ih (guardStep s GuardOp.release) h'
      rw [hgl] at ihs
      simp only [runGuard, countRel, countSucc]
      omega
    | drainBegin =>
      have hgl : (guardStep s GuardOp.drainBegin).liveCount =
          s.liveCount := rfl
      have h' : ∀ n, countRel (ops.take n) ≤
          (guardStep s GuardOp.drainBegin).liveCount +
            countSucc (guardStep s GuardOp.drainBegin) (ops.take n) := by
        intro n
        have hn := h (n + 1)
        simp only [List.take_succ_cons, countRel, countSucc] at hn
        rw [hgl]
        omega
      have ihs := ih (guardStep s GuardOp.drainBegin) h'
      rw [hgl] at ihs
      simp only [runGuard, countRel, countSucc]
      omega

/-- C7: once `begin_drain_and_wait` has flipped the draining flag, every
subsequent `try_acquire` (`ebpf_extension_hook_client_enter_rundown`) on
the guard fails; and on a well-formed interleaving the blocking wait can
return only when every `try_acquire` that succeeded has been matched by a
release (the live count reaching zero means the two counts agree). -/
theorem rundown_guard_correct :
    (∀ pre mid, (ebpf_extension_hook_client_enter_rundown
      (runGuard initRundownState (pre ++ GuardOp.drainBegin :: mid))).1 = false) ∧
    (∀ ops, balanced ops →
      rundown_wait_returns (runGuard initRundownState ops) →
      countSucc initRundownState ops = countRel ops) := by
  constructor
  · intro pre mid
    have hdrain : (runGuard initRundownState
        (pre ++ GuardOp.drainBegin :: mid)).draining = true := by
      rw [show GuardOp.drainBegin :: mid = [GuardOp.drainBegin] ++ mid from rfl,
        ← List.append_assoc, runGuard_append]
      apply runGuard_draining
      rw [runGuard_append]
      rfl
    simp [ebpf_extension_hook_client_enter_rundown,
      exAcquireRundownProtection, hdrain]
  · intro ops hb hz
    have h0 : initRundownState.liveCount = 0 := rfl
    have hpre : ∀ n, countRel (ops.take n) ≤
        initRundownState.liveCount + countSucc initRundownState (ops.take n) := by
      intro n
      by_cases hn : n < ops.length
      · have := hb.1 n hn
        omega
      · have ht : ops.take n = ops :=
          List.take_of_length_le (Nat.le_of_not_lt hn)
        rw [ht]
        have := hb.2
        omega
    have hinv := runGuard_liveCount ops initRundownState hpre
    have hz' : (runGuard initRundownState ops).liveCount = 0 := hz
    omega

/-- Witness for C7 on the concrete interleaving acquire, release, drain:
the successful acquires are matched by the releases. -/
theorem rundown_guard_correct_witness :
    countSucc initRundownState [GuardOp.tryAcquire, GuardOp.release,
      GuardOp.drainBegin] =
      countRel [GuardOp.tryAcquire, GuardOp.release, GuardOp.drainBegin] :=
  rundown_guard_correct.2 [.tryAcquire, .release, .drainBegin]
    ⟨by decide, by decide⟩ rfl

/-- The `Exit:` block does not change the list. -/
theorem attach_exit_finalList (s : NTSTATUS) (e : List AttachStep)
    (fl : List ebpf_extension_hook_client_t) (ca wa : Bool)
    (c : ebpf_extension_hook_client_t) :
    (attach_exit s e fl ca wa c).finalList = fl := by
  unfold attach_exit; split <;> rfl

/-- `ebpf_extension_hook_get_attached_client`: the first attached client
of the provider, if any, read under the shared lock. -/
def ebpf_extension_hook_get_attached_client
    (attached_clients_list : List ebpf_extension_hook_client_t) :
    Option ebpf_extension_hook_client_t :=
  if attached_clients_list.isEmpty then none else attached_clients_list.head?

/-- Walk the list to the given node and return its successor (`none`
when the node is last): the functional reading of following
`client_context->link.Flink` for a node on the list. -/
def next_in_list : List ebpf_extension_hook_client_t →
    ebpf_extension_hook_client_t → Option ebpf_extension_hook_client_t
  | [], _ => none
  | x :: xs, c => if x = c then xs.head? else next_in_list xs c

/-- `ebpf_extension_hook_get_next_attached_client`: with `none` return
the first attached client; otherwise the client after the given one,
`none` if it is the last. -/
def ebpf_extension_hook_get_next_attached_client
    (attached_clients_list : List ebpf_extension_hook_client_t)
    (client_context : Option ebpf_extension_hook_client_t) :
    Option ebpf_extension_hook_client_t :=
  match client_context with
  | none =>
    if attached_clients_list.isEmpty then none
    else attached_clients_list.head?
  | some c => next_in_list attached_clients_list c

/-- C8: the attached-client list stays in attach (insertion) order: a
successful attach appends at the tail; a detach removes just that client
and the remaining list is a sublist of the old one (relative order
preserved); and enumeration via get-attached-client / get-next walks the
list front to back. -/
theorem attached_list_insertion_order :
    (∀ i l, (_ebpf_extension_hook_provider_attach_client i l).status =
        .STATUS_SUCCESS →
      (_ebpf_extension_hook_provider_attach_client i l).finalList =
        InsertTailList l i.client) ∧
    (∀ (c : ebpf_extension_hook_client_t) l,
      ∃ o : DetachOutcome,
        _ebpf_extension_hook_provider_detach_client (some c) l = .ok o ∧
        o.finalList = l.erase c ∧
        o.finalList.Sublist l) ∧
    (∀ l, ebpf_extension_hook_get_attached_client l = l.head?) ∧
    (∀ l, ebpf_extension_hook_get_next_attached_client l none = l.head?) ∧
    (∀ l1 (c : ebpf_extension_hook_client_t) l2, c ∉ l1 →
      ebpf_extension_hook_get_next_attached_client (l1 ++ c :: l2) (some c) =
        l2.head?) := by
  refine ⟨?_, ?_, ?_, ?_, ?_⟩
  · intro i l
    unfold _ebpf_extension_hook_provider_attach_client
    by_cases h1 : (i.provider_binding_context_null || i.provider_dispatch_null
        || i.provider_context_null) = true
    · rw [if_pos h1]
      intro hs
      rw [attach_exit_status] at hs
      exact absurd hs (by decide)
    · rw [if_neg h1]
      by_cases h2 : i.alloc_hook_client_fails = true
      · rw [if_pos h2]
        intro hs
        rw [attach_exit_status] at hs
        exact absurd hs (by decide)
      · rw [if_neg h2]
        by_cases h3 : i.client_dispatch_null = true
        · rw [if_pos h3]
          intro hs
          rw [attach_exit_status] at hs
          exact absurd hs (by decide)
        · rw [if_neg h3]
          by_cases h4 : i.alloc_work_item_fails = true
          · rw [if_pos h4]
            intro hs
            rw [attach_exit_status] at hs
            exact absurd hs (by decide)
          · rw [if_neg h4]
            by_cases h5 : attach_callback_model i l = .EBPF_SUCCESS
            · rw [if_pos h5]
              intro _
              rw [attach_exit_finalList]
            · rw [if_neg h5]
              intro hs
              rw [attach_exit_status] at hs
              exact absurd hs (by decide)
  · intro c l
    exact ⟨_, rfl, rfl, List.erase_sublist c l⟩
  · intro l
    cases l <;> rfl
  · intro l
    cases l <;> rfl
  · intro l1 c l2 hc
    induction l1 with
    | nil =>
      simp [ebpf_extension_hook_get_next_attached_client, next_in_list]
    | cons x xs ih =>
      have hxc : ¬ (x = c) := by
        intro hx
        apply hc
        rw [← hx]
        exact List.mem_cons_self x xs
      have hc' : c ∉ xs := fun hm => hc (List.mem_cons_of_mem x hm)
      simpa [ebpf_extension_hook_get_next_attached_client, next_in_list, hxc]
        using ih hc'

/-- Witness for C8: a concrete successful attach appends at the tail,
and get-next on a concrete two-client list returns the second client. -/
theorem attached_list_insertion_order_witness :
    (_ebpf_extension_hook_provider_attach_client attachOkParams []).finalList =
      InsertTailList [] attachOkParams.client ∧
    ebpf_extension_hook_get_next_attached_client
      (([] : List ebpf_extension_hook_client_t) ++
        (⟨0, ⟨some [1]⟩⟩ : ebpf_extension_hook_client_t) :: [⟨1, ⟨some [2]⟩⟩])
      (some ⟨0, ⟨some [1]⟩⟩) = [(⟨1, ⟨some [2]⟩⟩ :
        ebpf_extension_hook_client_t)].head? :=
  ⟨attached_list_insertion_order.1 attachOkParams [] (by decide),
   attached_list_insertion_order.2.2.2.2 [] ⟨0, ⟨some [1]⟩⟩ [⟨1, ⟨some [2]⟩⟩]
     (by decide)⟩

end NtosEbpfExt
